import Mathlib

/-!
Shallow embedding of the PyAPNs2 client core (apns2/client.py, apns2/credentials.py,
apns2/payload.py) and verification of the specification's claims about it.

Python values that matter to the claims are embedded as follows:
* the return type `str | tuple[str, str]` of `_process_response` becomes `PyResult`;
* an exception raised by a stream is an opaque `PyExn`;
* an HTTP response is `Resp`: its status code plus the result of `response.json()`,
  where `body = none` models any failure inside the `try` block of `_process_response`
  (a body that raises during JSON parsing, or a non-dict document);
* a Python dict with string keys is an association list built with `dictInsert`,
  which mirrors dict assignment (update in place if the key exists, append otherwise);
* `time.time()` is an abstract natural-number clock passed as an argument;
* `jwt.encode` is an abstract `mk_token : Nat → String` argument (the token text is a
  function of the `iat` claim; the other claims are fixed per provider instance).
-/

namespace APNs2

/-- Embedding of the Python result values produced by the client: either a plain
string (`"Success"`, a rejection reason, `"InternalException"`) or a
`(reason, timestamp)` pair returned for status 410. -/
inductive PyResult where
  | str : String → PyResult
  | pair : String → String → PyResult
deriving DecidableEq, Repr

/-- Opaque model of a raised Python exception (transport error, timeout,
malformed response, ...), carrying only a description. -/
inductive PyExn where
  | mk : String → PyExn
deriving DecidableEq, Repr

/-- Successful JSON parse of a response body: a dict with optional `reason` and
`timestamp` fields (other fields are irrelevant to the code under study). -/
structure RespBody where
  reason : Option String
  timestamp : Option String
deriving DecidableEq, Repr

/-- Transport response: HTTP status code plus the outcome of `response.json()`.
`body = none` models `response.json()` (or the subsequent `.get`) raising. -/
structure Resp where
  status_code : Nat
  body : Option RespBody
deriving DecidableEq, Repr

instance {ε α : Type} [DecidableEq ε] [DecidableEq α] :
    DecidableEq (Except ε α) := fun a b =>
  match a, b with
  | .error e, .error f => decidable_of_iff (e = f) (by simp)
  | .error _, .ok _ => .isFalse (fun hh => Except.noConfusion hh)
  | .ok _, .error _ => .isFalse (fun hh => Except.noConfusion hh)
  | .ok x, .ok y => decidable_of_iff (x = y) (by simp)

/-- Embedding of `apns2/payload.py` `PayloadAlert` (constructor fields). -/
structure PayloadAlert where
  title : Option String := none
  title_localized_key : Option String := none
  title_localized_args : Option (List String) := none
  subtitle : Option String := none
  subtitle_localized_key : Option String := none
  subtitle_localized_args : Option (List String) := none
  body : Option String := none
  body_localized_key : Option String := none
  body_localized_args : Option (List String) := none
  action_localized_key : Option String := none
  action : Option String := none
  launch_image : Option String := none
deriving DecidableEq, Repr

/-- The `alert` field of a payload is either a plain string or a `PayloadAlert`. -/
inductive AlertField where
  | text : String → AlertField
  | obj : PayloadAlert → AlertField
deriving DecidableEq, Repr

/-- Embedding of `apns2/payload.py` `Payload` (constructor fields; the
serialization method `dict()` is out of scope per the specification, and the
`custom` dict is embedded as a string-to-string association list since its
contents never influence the code under study). -/
structure Payload where
  alert : Option AlertField := none
  badge : Option Int := none
  sound : Option String := none
  category : Option String := none
  url_args : Option (List String) := none
  custom : Option (List (String × String)) := none
  thread_id : Option String := none
  content_available : Bool := false
  mutable_content : Bool := false
deriving DecidableEq, Repr

/-- Embedding of the `Notification` namedtuple of `apns2/client.py`. -/
structure Notification where
  token : String
  payload : Payload
deriving DecidableEq, Repr

/-- Embedding of `NotificationPriority` from `apns2/client.py`. -/
inductive NotificationPriority where
  | Immediate
  | Delayed
deriving DecidableEq, Repr

/-- The `.value` string of each `NotificationPriority` member. -/
def NotificationPriority.value : NotificationPriority → String
  | .Immediate => "10"
  | .Delayed => "5"

/-- Embedding of `NotificationType` from `apns2/client.py`. -/
inductive NotificationType where
  | Alert
  | Background
  | VoIP
  | Complication
  | FileProvider
  | MDM
deriving DecidableEq, Repr

/-- The `.value` string of each `NotificationType` member. -/
def NotificationType.value : NotificationType → String
  | .Alert => "alert"
  | .Background => "background"
  | .VoIP => "voip"
  | .Complication => "complication"
  | .FileProvider => "fileprovider"
  | .MDM => "mdm"

/-- Embedding of `DEFAULT_APNS_PRIORITY` from `apns2/client.py`. -/
def DEFAULT_APNS_PRIORITY : NotificationPriority := NotificationPriority.Immediate

/-- Embedding of `APNsClient._process_response` (client.py lines 251-264):
status 200 returns `"Success"` without looking at the body; otherwise the body
is parsed, status 410 returns the `(reason, timestamp)` pair with defaults
`"Unregistered"` and `""`, any other status returns the `reason` string with
default `"InternalException"`; a body that fails to parse yields
`"InternalException"`. -/
def process_response (response : Resp) : PyResult :=
  if response.status_code = 200 then
    .str "Success"
  else
    match response.body with
    | none => .str "InternalException"
    | some data =>
      if response.status_code = 410 then
        .pair (data.reason.getD "Unregistered") (data.timestamp.getD "")
      else
        .str (data.reason.getD "InternalException")

/-- Embedding of the per-stream result handling in `asend_notification_batch`
(client.py lines 171-178): an element of `asyncio.gather(..., return_exceptions=True)`
is either a raised exception, recorded as `"InternalException"`, or a response,
which is classified by `_process_response`. -/
def gatherOutcome : Except PyExn Resp → PyResult
  | .error _ => .str "InternalException"
  | .ok response => process_response response

/-- Python dict assignment `d[k] = v` on an association-list representation
with unique keys: if the key is present its entry is updated in place,
otherwise the pair is appended (dicts preserve first-insertion order of
keys). -/
def dictInsert : List (String × PyResult) → String → PyResult →
    List (String × PyResult)
  | [], k, v => [(k, v)]
  | p :: d, k, v => if p.1 == k then (k, v) :: d else p :: dictInsert d k v

/-- Pairing of each list element with its position, mirroring
`zip(notifications_list, responses)` where `responses[i]` is the result of the
`i`-th task created from `notifications_list`. -/
def enumFrom (k : Nat) : List α → List (Nat × α)
  | [] => []
  | a :: l => (k, a) :: enumFrom (k + 1) l

/-- Enumeration of a list starting at index 0. -/
def enumerate (l : List α) : List (Nat × α) := enumFrom 0 l

/-- The result-collection loop of `asend_notification_batch` (client.py lines
170-181): fold the `(token, outcome)` pairs into a dict. -/
def collectResults (outcomes : List (String × PyResult)) : List (String × PyResult) :=
  outcomes.foldl (fun acc p => dictInsert acc p.1 p.2) []

/-- Embedding of `APNsClient.asend_notification_batch` (client.py lines
139-184).  The transport is an oracle `transport : Nat → Except PyExn Resp`
giving, for each of the concurrently issued streams (indexed by position in the
batch), either the raised exception or the received response; this models
`asyncio.gather(*tasks, return_exceptions=True)`, which returns exactly one
such value per task, in task order.  An empty batch returns the empty dict
immediately. -/
def asend_notification_batch (transport : Nat → Except PyExn Resp)
    (notifications : List Notification) : List (String × PyResult) :=
  if notifications.isEmpty then
    []
  else
    collectResults ((enumerate notifications).map
      (fun p => (p.2.token, gatherOutcome (transport p.1))))

/-- Effect-instrumented version of `asend_notification_batch`.  `σ` is the
state of the shared collaborators (the Connection and the Credential Provider's
cached signature) and `step` is the per-notification effect of building and
posting one request (`_send_single_notification`).  The empty-batch branch
mirrors client.py lines 148-150: it returns the empty dict before any task is
created, so the state is passed through untouched. -/
def asend_notification_batch_traced {σ : Type} (step : σ → Notification → σ)
    (transport : Nat → Except PyExn Resp) (notifications : List Notification)
    (s : σ) : List (String × PyResult) × σ :=
  if notifications.isEmpty then
    ([], s)
  else
    (asend_notification_batch transport notifications, notifications.foldl step s)

/-- Python's `str.endswith(suffix)` on the embedded character lists. -/
def pyEndsWith (s suffix : String) : Bool :=
  decide (suffix.data <:+ s.data)

/-- The `inferred_push_type` value computed by `_send_single_notification`
(client.py lines 205-224): start at `None`; when a topic is present run the
suffix / payload inference chain (which always assigns a value); afterwards an
explicitly passed `push_type` overrides whatever was inferred. -/
def inferred_push_type_value (payload : Payload) (topic : Option String)
    (push_type : Option NotificationType) : Option String :=
  let inferred : Option String :=
    match topic with
    | none => none
    | some t =>
      some (if pyEndsWith t ".voip" then NotificationType.VoIP.value
        else if pyEndsWith t ".complication" then NotificationType.Complication.value
        else if pyEndsWith t ".pushkit.fileprovider" then NotificationType.FileProvider.value
        else if payload.alert.isSome || payload.badge.isSome || payload.sound.isSome then
          NotificationType.Alert.value
        else NotificationType.Background.value)
  match push_type with
  | some pt => some pt.value
  | none => inferred

/-- Embedding of the header construction of `_send_single_notification`
(client.py lines 203-240), in the source's insertion order.  `auth_header`
stands for the value returned by `credentials.get_authorization_header(topic)`.
The `if inferred_push_type:` truthiness test in the source is an is-not-None
test here because every candidate value is a nonempty `NotificationType.value`
string.  The `if push_type:` truthiness test is an is-not-None test because
enum members are always truthy in Python. -/
def send_single_notification_headers (notification : Notification)
    (topic : Option String) (priority : NotificationPriority)
    (expiration : Option Int) (collapse_id : Option String)
    (push_type : Option NotificationType) (auth_header : Option String) :
    List (String × String) :=
  let headers : List (String × String) :=
    match topic with
    | some t => [("apns-topic", t)]
    | none => []
  let headers :=
    match inferred_push_type_value notification.payload topic push_type with
    | some v => headers ++ [("apns-push-type", v)]
    | none => headers
  let headers :=
    if priority = DEFAULT_APNS_PRIORITY then headers
    else headers ++ [("apns-priority", priority.value)]
  let headers :=
    match expiration with
    | some e => headers ++ [("apns-expiration", toString e)]
    | none => headers
  let headers :=
    match auth_header with
    | some auth => headers ++ [("authorization", auth)]
    | none => headers
  let headers :=
    match collapse_id with
    | some c => headers ++ [("apns-collapse-id", c)]
    | none => headers
  headers

/-- Push-type precedence exactly as the specification words it (spec section
4.2 and claim C5): an explicit `push_type` wins; else a present routing scope
is inspected for the three special suffixes; else the payload's
alert/badge/sound fields decide between Alert and Background; an absent
routing scope with no explicit push type yields no header. -/
def spec_push_type_value (payload : Payload) (routing_scope : Option String)
    (push_type : Option NotificationType) : Option String :=
  match push_type with
  | some pt => some pt.value
  | none =>
    match routing_scope with
    | none => none
    | some t =>
      if pyEndsWith t ".voip" then some NotificationType.VoIP.value
      else if pyEndsWith t ".complication" then some NotificationType.Complication.value
      else if pyEndsWith t ".pushkit.fileprovider" then some NotificationType.FileProvider.value
      else if payload.alert.isSome || payload.badge.isSome || payload.sound.isSome then
        some NotificationType.Alert.value
      else some NotificationType.Background.value

/-- Embedding of `DEFAULT_TOKEN_LIFETIME` from `apns2/credentials.py`. -/
def DEFAULT_TOKEN_LIFETIME : Nat := 2700

/-- Embedding of `TokenCredentials._is_expired_token` (credentials.py lines
88-89): `time.time() > issue_date + token_lifetime`, with the clock passed
explicitly. -/
def is_expired_token (token_lifetime : Nat) (now : Nat) (issue_date : Nat) : Bool :=
  decide (now > issue_date + token_lifetime)

/-- Embedding of `TokenCredentials._get_or_create_topic_token` (credentials.py
lines 99-127).  The cached signature `jwt_token` is `none` or an
`(issued_at, token_text)` pair; `mk_token` abstracts `jwt.encode` applied to
the claims dict with the given `iat`; the function returns the token text and
the provider's cache after the call. -/
def get_or_create_topic_token (token_lifetime : Nat) (mk_token : Nat → String)
    (now : Nat) (jwt_token : Option (Nat × String)) :
    String × Option (Nat × String) :=
  match jwt_token with
  | none => (mk_token now, some (now, mk_token now))
  | some token_pair =>
    if is_expired_token token_lifetime now token_pair.1 then
      (mk_token now, some (now, mk_token now))
    else
      (token_pair.2, some token_pair)

/-- Embedding of `TokenCredentials.get_authorization_header` (credentials.py
lines 84-86): `"bearer %s" % token`.  The `topic` argument of the source is
ignored by the token path, so it is omitted. -/
def get_authorization_header_token (token_lifetime : Nat) (mk_token : Nat → String)
    (now : Nat) (jwt_token : Option (Nat × String)) :
    String × Option (Nat × String) :=
  let r := get_or_create_topic_token token_lifetime mk_token now jwt_token
  ("bearer " ++ r.1, r.2)

/-- Classification of what the direct `asyncio.run(fresh_coro)` attempt did:
completed, raised a `RuntimeError` with the given message, or raised any other
exception. -/
inductive DirectOutcome where
  | ok
  | runtimeError : String → DirectOutcome
  | otherError : String → DirectOutcome
deriving DecidableEq, Repr

/-- The three execution strategies of `_run_async`: direct `asyncio.run`,
manual event-loop management (`_run_with_manual_loop`), or a dedicated worker
thread (`_run_in_separate_thread`). -/
inductive Strategy where
  | direct
  | manualLoop
  | separateThread
deriving DecidableEq, Repr

/-- The event-loop lifecycle error phrases matched by `_run_async`
(client.py lines 295-303). -/
def loopErrorPhrases : List String :=
  ["event loop is closed",
   "event loop is running",
   "cannot be called from a running event loop",
   "there is no current event loop"]

/-- Python's `str.lower()` on the embedded character list (the phrases matched
are ASCII, for which per-character lowering coincides with `str.lower`). -/
def pyLower (s : String) : List Char :=
  s.data.map Char.toLower

/-- The test `any(phrase in error_msg for phrase in [...])` applied to the
lowered message of a `RuntimeError` (client.py lines 293-303). -/
def is_event_loop_error (msg : String) : Bool :=
  loopErrorPhrases.any (fun phrase => decide (phrase.data <:+: pyLower msg))

/-- Strategy selection of `APNsClient._run_async` (client.py lines 266-311) as
a function of the pre-computed Celery flag, whether `asyncio.get_running_loop()`
finds a running loop in the calling thread, and how the direct `asyncio.run`
attempt fared: Celery forces a worker thread; a running loop forces a worker
thread; otherwise a successful direct run stands, a `RuntimeError` whose
lowered message contains one of the loop-lifecycle phrases falls back to
manual loop management, and any other failure falls back to a worker thread. -/
def run_async_strategy (is_celery_worker : Bool) (inside_running_loop : Bool)
    (direct_attempt : DirectOutcome) : Strategy :=
  if is_celery_worker then
    .separateThread
  else if inside_running_loop then
    .separateThread
  else
    match direct_attempt with
    | .ok => .direct
    | .runtimeError msg =>
      if is_event_loop_error msg then .manualLoop else .separateThread
    | .otherError _ => .separateThread

/-- Python values a bridged coroutine can produce: `None`, a string, a
`(str, str)` tuple, or a dict from tokens to results — the return types of
`asend_notification` and `asend_notification_batch`. -/
inductive PyVal where
  | pyNone
  | str : String → PyVal
  | strPair : String → String → PyVal
  | dict : List (String × PyResult) → PyVal
deriving DecidableEq, Repr

/-- Failures `_run_in_separate_thread` reports to its caller: the 5-minute
join timeout, the re-raised worker exception, or the generic
`RuntimeError("Failed to get result from async operation")`. -/
inductive BridgeError where
  | timeoutError : String → BridgeError
  | reraised : PyExn → BridgeError
  | genericFailure : String → BridgeError
deriving DecidableEq, Repr

/-- The worker body of `_run_in_separate_thread` (client.py lines 322-342):
`result` starts as `None` and `exception` as `None`; running the coroutine
either assigns `result` or is caught and assigns `exception`.  Note that a
coroutine that returns `None` leaves the capture state identical to its
initial value. -/
def run_worker (coroutine : Except PyExn PyVal) : PyVal × Option PyExn :=
  match coroutine with
  | .ok v => (v, Option.none)
  | .error e => (PyVal.pyNone, some e)

/-- The post-join logic of `_run_in_separate_thread` (client.py lines 344-355):
a timed-out join raises; a captured exception is re-raised; an `is None`
result raises the generic failure; otherwise the result is returned. -/
def bridge_finish (captured : PyVal × Option PyExn) (timed_out : Bool) :
    Except BridgeError PyVal :=
  if timed_out then
    .error (.timeoutError "Async operation timed out after 5 minutes")
  else
    match captured.2 with
    | some e => .error (.reraised e)
    | none =>
      if captured.1 = PyVal.pyNone then
        .error (.genericFailure "Failed to get result from async operation")
      else
        .ok captured.1

/-- Embedding of `APNsClient._run_in_separate_thread` (client.py lines
313-355) as the composition of the worker capture and the post-join logic. -/
def run_in_separate_thread (coroutine : Except PyExn PyVal) (timed_out : Bool) :
    Except BridgeError PyVal :=
  bridge_finish (run_worker coroutine) timed_out

/-- Injection of a single-send result (`str | tuple[str, str]`) into the
Python value universe; it never lands on `None`. -/
def pyResultToVal : PyResult → PyVal
  | .str s => .str s
  | .pair a b => .strPair a b

/-- A payload with every constructor argument left at its default. -/
def emptyPayload : Payload := {}

/-- Helper lemmas about the dict embedding. -/
theorem lookup_dictInsert (d : List (String × PyResult)) (k : String)
    (v : PyResult) (t : String) :
    List.lookup t (dictInsert d k v) =
      if t == k then some v else List.lookup t d := by
  induction d with
  | nil =>
    rcases h : t == k with _ | _ <;> simp [dictInsert, List.lookup, h]
  | cons p d ih =>
    rcases hp : p.1 == k with _ | _
    · rcases ht : t == p.1 with _ | _
      · simp [dictInsert, hp, List.lookup, ht, ih]
      · have htk : (t == k) = false := by
          have h1 : t = p.1 := by simpa using ht
          have h2 : ¬ p.1 = k := by simpa using hp
          simp [h1, h2]
        simp [dictInsert, hp, List.lookup, ht, htk]
    · rcases htk : t == k with _ | _
      · have h1 : p.1 = k := by simpa using hp
        have h2 : (t == p.1) = false := by
          have h3 : ¬ t = k := by simpa using htk
          simp [h1, h3]
        simp [dictInsert, hp, List.lookup, htk, h2]
      · simp [dictInsert, hp, List.lookup, htk]

theorem keys_dictInsert (d : List (String × PyResult)) (k : String)
    (v : PyResult) :
    (dictInsert d k v).map Prod.fst =
      if k ∈ d.map Prod.fst then d.map Prod.fst else d.map Prod.fst ++ [k] := by
  induction d with
  | nil => simp [dictInsert]
  | cons p d ih =>
    by_cases hp : p.1 = k
    · simp [dictInsert, hp]
    · have hp' : (p.1 == k) = false := by simp [hp]
      have hp'' : ¬ (k = p.1) := fun h => hp h.symm
      by_cases hk : k ∈ d.map Prod.fst
      · simp [dictInsert, hp', hk, ih, hp'']
      · simp [dictInsert, hp', hk, ih, hp'']

theorem mem_keys_dictInsert (d : List (String × PyResult)) (k : String)
    (v : PyResult) (t : String) :
    t ∈ (dictInsert d k v).map Prod.fst ↔ t ∈ d.map Prod.fst ∨ t = k := by
  rw [keys_dictInsert]
  by_cases hk : k ∈ d.map Prod.fst
  · simp only [hk, if_true]
    constructor
    · exact Or.inl
    · rintro (h | rfl)
      · exact h
      · exact hk
  · simp [hk]

theorem nodup_keys_dictInsert (d : List (String × PyResult)) (k : String)
    (v : PyResult) (h : (d.map Prod.fst).Nodup) :
    ((dictInsert d k v).map Prod.fst).Nodup := by
  rw [keys_dictInsert]
  by_cases hk : k ∈ d.map Prod.fst
  · simpa [hk] using h
  · simp [hk, List.nodup_append, h]

theorem lookup_foldl_dictInsert (l : List (String × PyResult)) :
    ∀ (acc : List (String × PyResult)) (t : String),
      List.lookup t (l.foldl (fun a p => dictInsert a p.1 p.2) acc) =
        ((l.reverse.find? (fun p => p.1 == t)).map Prod.snd).or
          (List.lookup t acc) := by
  induction l with
  | nil => intro acc t; simp [Option.or]
  | cons p l ih =>
    intro acc t
    rw [List.foldl_cons, ih, List.reverse_cons, List.find?_append]
    rcases h : l.reverse.find? (fun p => p.1 == t) with _ | x
    · rw [h, lookup_dictInsert]
      rcases hpt : p.1 == t with _ | _
      · have h3 : ¬ p.1 = t := by simpa using hpt
        have h4 : ¬ t = p.1 := fun hh => h3 hh.symm
        have h1 : (t == p.1) = false := by simp [h4]
        simp [h1, hpt, Option.or, List.find?]
      · have h1 : (t == p.1) = true := by
          have h3 : p.1 = t := by simpa using hpt
          simp [h3]
        simp [h1, hpt, Option.or, List.find?]
    · rw [h]
      simp [Option.or]

theorem mem_keys_foldl_dictInsert (l : List (String × PyResult)) :
    ∀ (acc : List (String × PyResult)) (t : String),
      t ∈ ((l.foldl (fun a p => dictInsert a p.1 p.2) acc).map Prod.fst) ↔
        t ∈ acc.map Prod.fst ∨ ∃ p ∈ l, p.1 = t := by
  induction l with
  | nil => intro acc t; simp
  | cons p l ih =>
    intro acc t
    rw [List.foldl_cons, ih, mem_keys_dictInsert]
    constructor
    · rintro ((h | rfl) | ⟨q, hq, rfl⟩)
      · exact Or.inl h
      · exact Or.inr ⟨p, List.mem_cons_self p l, rfl⟩
      · exact Or.inr ⟨q, List.mem_cons_of_mem p hq, rfl⟩
    · rintro (h | ⟨q, hq, rfl⟩)
      · exact Or.inl (Or.inl h)
      · rcases List.mem_cons.mp hq with rfl | hq'
        · exact Or.inl (Or.inr rfl)
        · exact Or.inr ⟨q, hq', rfl⟩

theorem nodup_keys_foldl_dictInsert (l : List (String × PyResult)) :
    ∀ (acc : List (String × PyResult)),
      (acc.map Prod.fst).Nodup →
      ((l.foldl (fun a p => dictInsert a p.1 p.2) acc).map Prod.fst).Nodup := by
  induction l with
  | nil => intro acc h; simpa using h
  | cons p l ih =>
    intro acc h
    rw [List.foldl_cons]
    exact ih _ (nodup_keys_dictInsert acc p.1 p.2 h)

/-- Helper lemmas about list enumeration. -/
theorem enumFrom_map_snd : ∀ (k : Nat) (l : List α),
    (enumFrom k l).map Prod.snd = l := by
  intro k l
  induction l generalizing k with
  | nil => rfl
  | cons a l ih => simp [enumFrom, ih]

theorem le_fst_of_mem_enumFrom {p : Nat × α} :
    ∀ {k : Nat} {l : List α}, p ∈ enumFrom k l → k ≤ p.1 := by
  intro k l
  induction l generalizing k with
  | nil => intro h; simp [enumFrom] at h
  | cons a l ih =>
    intro h
    rcases List.mem_cons.mp h with rfl | h'
    · exact Nat.le_refl _
    · exact Nat.le_trans (Nat.le_succ k) (ih h')

theorem find?_reverse_enumFrom_last (q : Nat × α → Bool) :
    ∀ (l : List α) (k i : Nat) (a : α),
      (i, a) ∈ enumFrom k l → q (i, a) = true →
      (∀ p ∈ enumFrom k l, q p = true → p.1 ≤ i) →
      (enumFrom k l).reverse.find? q = some (i, a) := by
  intro l
  induction l with
  | nil => intro k i a h; simp [enumFrom] at h
  | cons x l ih =>
    intro k i a hmem hq hmax
    simp only [enumFrom, List.reverse_cons, List.find?_append]
    rcases List.mem_cons.mp hmem with heq | htail
    · have h1 : i = k := congrArg Prod.fst heq
      have h2 : a = x := congrArg Prod.snd heq
      have hnone : (enumFrom (k + 1) l).reverse.find? q = none := by
        rw [List.find?_eq_none]
        intro p hp hqp
        have hmem' : p ∈ enumFrom (k + 1) l := List.mem_reverse.mp hp
        have hle := hmax p (List.mem_cons_of_mem _ hmem') hqp
        have hge := le_fst_of_mem_enumFrom hmem'
        omega
      rw [hnone, ← h1, ← h2]
      simp [Option.or, List.find?, hq]
    · have := ih (k + 1) i a htail hq
        (fun p hp hqp => hmax p (List.mem_cons_of_mem _ hp) hqp)
      rw [this]
      simp [Option.or]

/-- Characterization of a batch lookup: the outcome recorded for token `t` is
the gathered outcome of the last notification in input order whose token is
`t`, or absent when no notification has that token. -/
theorem asend_batch_lookup (transport : Nat → Except PyExn Resp)
    (ns : List Notification) (t : String) :
    List.lookup t (asend_notification_batch transport ns) =
      ((enumerate ns).reverse.find? (fun p => p.2.token == t)).map
        (fun p => gatherOutcome (transport p.1)) := by
  cases ns with
  | nil => simp [asend_notification_batch, enumerate, enumFrom]
  | cons n ns' =>
    rw [asend_notification_batch]
    simp only [List.isEmpty_cons, if_false, Bool.false_eq_true]
    rw [collectResults, lookup_foldl_dictInsert]
    rw [← List.map_reverse, List.find?_map]
    have hcomp :
        ((fun p : String × PyResult => p.1 == t) ∘
          (fun p : Nat × Notification => (p.2.token, gatherOutcome (transport p.1)))) =
          (fun p : Nat × Notification => p.2.token == t) := rfl
    rw [hcomp]
    have hfin : ∀ o : Option (Nat × Notification),
        ((Option.map
            (fun p : Nat × Notification => (p.2.token, gatherOutcome (transport p.1)))
            o).map Prod.snd).or (List.lookup t ([] : List (String × PyResult))) =
          Option.map (fun p : Nat × Notification => gatherOutcome (transport p.1)) o := by
      intro o
      cases o <;> rfl
    exact hfin _

/-- Version of `find?_reverse_enumFrom_last` stated for `enumerate`. -/
theorem find?_reverse_enumerate_last (q : Nat × α → Bool) (l : List α)
    (i : Nat) (a : α) (hmem : (i, a) ∈ enumerate l) (hq : q (i, a) = true)
    (hmax : ∀ p ∈ enumerate l, q p = true → p.1 ≤ i) :
    (enumerate l).reverse.find? q = some (i, a) :=
  find?_reverse_enumFrom_last q l 0 i a hmem hq hmax

/-- The first match of a reversed enumeration carries the maximal index among
all matches: every enumerated entry satisfying the predicate has an index no
greater than the found one's. -/
theorem find?_reverse_enumFrom_max (q : Nat × α → Bool) :
    ∀ (l : List α) (k : Nat) (x : Nat × α),
      (enumFrom k l).reverse.find? q = some x →
      ∀ p ∈ enumFrom k l, q p = true → p.1 ≤ x.1 := by
  intro l
  induction l with
  | nil => intro k x h; simp [enumFrom] at h
  | cons a l ih =>
    intro k x h p hp hqp
    simp only [enumFrom, List.reverse_cons, List.find?_append] at h
    rcases h1 : (enumFrom (k + 1) l).reverse.find? q with _ | y
    · rw [h1] at h
      have h' : List.find? q [(k, a)] = some x := h
      have hx : x = (k, a) := by
        rcases hqa : q (k, a) with _ | _
        · simp [List.find?, hqa] at h'
        · simp [List.find?, hqa] at h'
          exact h'.symm
      rcases List.mem_cons.mp hp with rfl | hp'
      · simp [hx]
      · exfalso
        exact List.find?_eq_none.mp h1 p (List.mem_reverse.mpr hp') hqp
    · rw [h1] at h
      have hsy : some y = some x := h
      have hyx : y = x := by injection hsy
      rcases List.mem_cons.mp hp with rfl | hp'
      · have hy_mem : y ∈ enumFrom (k + 1) l :=
          List.mem_reverse.mp (List.mem_of_find?_eq_some h1)
        have hk1 : k + 1 ≤ y.1 := le_fst_of_mem_enumFrom hy_mem
        rw [← hyx]
        exact Nat.le_trans (Nat.le_succ k) hk1
      · rw [← hyx]
        exact ih (k + 1) y h1 p hp' hqp

/-- Version of `find?_reverse_enumFrom_max` stated for `enumerate`. -/
theorem find?_reverse_enumerate_max (q : Nat × α → Bool) (l : List α)
    (x : Nat × α) (h : (enumerate l).reverse.find? q = some x) :
    ∀ p ∈ enumerate l, q p = true → p.1 ≤ x.1 :=
  find?_reverse_enumFrom_max q l 0 x h

/-- An element-wise property holds of some second component of an enumeration
iff it holds of some list element. -/
theorem exists_mem_enumerate_snd {α : Type} (P : α → Prop) (l : List α) :
    (∃ q ∈ enumerate l, P q.2) ↔ ∃ a ∈ l, P a := by
  have hsnd : (enumerate l).map Prod.snd = l := enumFrom_map_snd 0 l
  constructor
  · rintro ⟨q, hq, hP⟩
    refine ⟨q.2, ?_, hP⟩
    have h := List.mem_map_of_mem Prod.snd hq
    rwa [hsnd] at h
  · rintro ⟨a, ha, hP⟩
    have h : a ∈ (enumerate l).map Prod.snd := by rw [hsnd]; exact ha
    rcases List.mem_map.mp h with ⟨q, hq, hqa⟩
    exact ⟨q, hq, by rw [hqa]; exact hP⟩

/-- C2: the BatchResult returned by `asend_notification_batch` is keyed by
exactly the distinct tokens of the batch — its key list has no duplicates, a
token is a key iff some input notification bears it — and the outcome stored
for a token is the gathered outcome of the last notification in input order
bearing that token (last write wins). -/
theorem claim2_batch_result_tokens (transport : Nat → Except PyExn Resp)
    (ns : List Notification) :
    ((asend_notification_batch transport ns).map Prod.fst).Nodup ∧
    (∀ t, t ∈ (asend_notification_batch transport ns).map Prod.fst ↔
        t ∈ ns.map Notification.token) ∧
    (∀ t, List.lookup t (asend_notification_batch transport ns) =
        ((enumerate ns).reverse.find? (fun p => p.2.token == t)).map
          (fun p => gatherOutcome (transport p.1))) := by
  refine ⟨?_, ?_, fun t => asend_batch_lookup transport ns t⟩
  · cases ns with
    | nil => simp [asend_notification_batch]
    | cons n ns' =>
      rw [asend_notification_batch]
      simp only [List.isEmpty_cons, if_false, Bool.false_eq_true]
      exact nodup_keys_foldl_dictInsert _ [] (by simp)
  · intro t
    cases ns with
    | nil => simp [asend_notification_batch]
    | cons n ns' =>
      rw [asend_notification_batch]
      simp only [List.isEmpty_cons, if_false, Bool.false_eq_true]
      rw [collectResults, mem_keys_foldl_dictInsert]
      constructor
      · rintro (h | ⟨p, hp, hpt⟩)
        · simp at h
        · rcases List.mem_map.mp hp with ⟨q, hq, hgq⟩
          have hqt : q.2.token = t := by rw [← hpt, ← hgq]
          rcases (exists_mem_enumerate_snd (fun m => m.token = t) (n :: ns')).mp
            ⟨q, hq, hqt⟩ with ⟨m, hm, hmt⟩
          exact List.mem_map.mpr ⟨m, hm, hmt⟩
      · intro h
        rcases List.mem_map.mp h with ⟨m, hm, hmt⟩
        rcases (exists_mem_enumerate_snd (fun a => a.token = t) (n :: ns')).mpr
          ⟨m, hm, hmt⟩ with ⟨q, hq, hqt⟩
        exact Or.inr ⟨(q.2.token, gatherOutcome (transport q.1)),
          List.mem_map_of_mem _ hq, hqt⟩

/-- C1 counterexample: with two notifications sharing one token, where the
first stream raises and the second succeeds, the batch records `"Success"` for
that token even though the first notification's request raised — so the claim
that every raising notification's token maps to InternalError fails as
stated. -/
theorem claim1_counterexample :
    (fun i => if i = 0 then Except.error (PyExn.mk "ConnectError")
        else Except.ok ({ status_code := 200, body := none } : Resp)) 0 =
      Except.error (PyExn.mk "ConnectError") ∧
    asend_notification_batch
        (fun i => if i = 0 then Except.error (PyExn.mk "ConnectError")
          else Except.ok ({ status_code := 200, body := none } : Resp))
        [⟨"t", emptyPayload⟩, ⟨"t", emptyPayload⟩] =
      [("t", PyResult.str "Success")] ∧
    PyResult.str "Success" ≠ PyResult.str "InternalException" := by
  refine ⟨rfl, by decide, by decide⟩

/-- C1 (amended): in the batch path, a notification whose request raises is
recorded as `"InternalException"` for its token provided no later notification
in the batch bears the same token; and the outcome recorded for any token
depends only on the transport behavior at the last notification bearing that
token — two transports that agree there yield the same outcome for it, so the
outcome is unchanged under any change to streams of notifications bearing
other tokens or to earlier same-token streams, one stream's failure never
perturbs a sibling token's outcome, and no exception escapes — the batch is
total for every transport oracle. -/
theorem claim1_amended_failure_isolation
    (transport transport' : Nat → Except PyExn Resp) (ns : List Notification)
    (i : Nat) (n : Notification) (e : PyExn) (t : String) :
    ((i, n) ∈ enumerate ns →
      (∀ p ∈ enumerate ns, p.2.token = n.token → p.1 ≤ i) →
      transport i = Except.error e →
      List.lookup n.token (asend_notification_batch transport ns) =
        some (PyResult.str "InternalException")) ∧
    ((∀ p ∈ enumerate ns, p.2.token = t →
        (∀ q ∈ enumerate ns, q.2.token = t → q.1 ≤ p.1) →
        transport p.1 = transport' p.1) →
      List.lookup t (asend_notification_batch transport ns) =
        List.lookup t (asend_notification_batch transport' ns)) := by
  constructor
  · intro hmem hlast hfail
    rw [asend_batch_lookup]
    have hq : (fun p : Nat × Notification => p.2.token == n.token) (i, n) = true := by
      simp
    have hmax : ∀ p ∈ enumerate ns,
        (fun p : Nat × Notification => p.2.token == n.token) p = true → p.1 ≤ i := by
      intro p hp hqp
      exact hlast p hp (by simpa using hqp)
    rw [find?_reverse_enumerate_last _ ns i n hmem hq hmax]
    simp [gatherOutcome, hfail]
  · intro hagree
    rw [asend_batch_lookup, asend_batch_lookup]
    rcases h : (enumerate ns).reverse.find?
        (fun p => p.2.token == t) with _ | x
    · rw [h]
      rfl
    · rw [h]
      have hx1 : x ∈ (enumerate ns).reverse := List.mem_of_find?_eq_some h
      have hx2 := List.find?_some h
      have hx3 : x.2.token = t := by simpa using hx2
      have hxmax : ∀ q ∈ enumerate ns, q.2.token = t → q.1 ≤ x.1 := by
        intro qq hqq hqt
        exact find?_reverse_enumerate_max _ ns x h qq hqq (by simpa using hqt)
      have hxa := hagree x (List.mem_reverse.mp hx1) hx3 hxmax
      simp [hxa]

/-- C1 witness: a two-token batch whose first stream raises records
InternalError for the failing token; and in a duplicate-token batch whose
earlier stream raises, the token's outcome equals the one under a transport
where that earlier stream succeeds — only the last same-token stream
matters. -/
theorem claim1_amended_witness :
    List.lookup "a"
        (asend_notification_batch
          (fun i => if i = 0 then Except.error (PyExn.mk "ConnectError")
            else Except.ok ({ status_code := 200, body := none } : Resp))
          [⟨"a", emptyPayload⟩, ⟨"b", emptyPayload⟩]) =
      some (PyResult.str "InternalException") ∧
    List.lookup "b"
        (asend_notification_batch
          (fun i => if i = 0 then Except.error (PyExn.mk "ConnectError")
            else Except.ok ({ status_code := 200, body := none } : Resp))
          [⟨"b", emptyPayload⟩, ⟨"b", emptyPayload⟩]) =
      List.lookup "b"
        (asend_notification_batch
          (fun _ => Except.ok ({ status_code := 200, body := none } : Resp))
          [⟨"b", emptyPayload⟩, ⟨"b", emptyPayload⟩]) :=
  ⟨(claim1_amended_failure_isolation
      (fun i => if i = 0 then Except.error (PyExn.mk "ConnectError")
        else Except.ok ({ status_code := 200, body := none } : Resp))
      (fun _ => Except.ok ({ status_code := 200, body := none } : Resp))
      [⟨"a", emptyPayload⟩, ⟨"b", emptyPayload⟩] 0 ⟨"a", emptyPayload⟩
      (PyExn.mk "ConnectError") "b").1 (by decide) (by decide) rfl,
   (claim1_amended_failure_isolation
      (fun i => if i = 0 then Except.error (PyExn.mk "ConnectError")
        else Except.ok ({ status_code := 200, body := none } : Resp))
      (fun _ => Except.ok ({ status_code := 200, body := none } : Resp))
      [⟨"b", emptyPayload⟩, ⟨"b", emptyPayload⟩] 0 ⟨"b", emptyPayload⟩
      (PyExn.mk "ConnectError") "b").2 (by decide)⟩

/-- C8: dispatching an empty batch returns the empty BatchResult and passes
the shared state (Connection plus Credential Provider cache) through
untouched: no per-notification build/post effect is applied. -/
theorem claim8_empty_batch {σ : Type} (step : σ → Notification → σ)
    (transport : Nat → Except PyExn Resp) (s : σ) :
    asend_notification_batch_traced step transport [] s = ([], s) ∧
    asend_notification_batch transport [] = [] := by
  exact ⟨rfl, rfl⟩

/-- C3: the response classifier maps status 200 to Success without consulting
the body, a non-200 response whose body fails to parse to InternalError,
status 410 to the Gone pair with defaults `"Unregistered"` and `""`, and any
other non-200 status with a parsed `reason` field to that rejection string;
being a total Lean function, it returns an outcome for every response and no
exception escapes. -/
theorem claim3_process_response_classification (response : Resp)
    (data : RespBody) (r : String) :
    (response.status_code = 200 → process_response response = .str "Success") ∧
    (response.status_code ≠ 200 → response.body = none →
      process_response response = .str "InternalException") ∧
    (response.status_code = 410 → response.body = some data →
      process_response response =
        .pair (data.reason.getD "Unregistered") (data.timestamp.getD "")) ∧
    (response.status_code ≠ 200 → response.status_code ≠ 410 →
      response.body = some data → data.reason = some r →
      process_response response = .str r) := by
  refine ⟨?_, ?_, ?_, ?_⟩
  · intro h
    simp [process_response, h]
  · intro h hb
    simp [process_response, h, hb]
  · intro h hb
    simp [process_response, h, hb]
  · intro h h410 hb hr
    simp [process_response, h, h410, hb, hr]

/-- C3 witness: the four classifier cases at concrete responses — a 200, a
500 with unparseable body, a 410 with reason and timestamp, and a 400 with
reason `"BadDeviceToken"`. -/
theorem claim3_witness :
    process_response ⟨200, none⟩ = .str "Success" ∧
    process_response ⟨500, none⟩ = .str "InternalException" ∧
    process_response ⟨410, some ⟨some "Unregistered", some "1234567890"⟩⟩ =
      .pair "Unregistered" "1234567890" ∧
    process_response ⟨400, some ⟨some "BadDeviceToken", none⟩⟩ =
      .str "BadDeviceToken" :=
  ⟨(claim3_process_response_classification ⟨200, none⟩
      ⟨none, none⟩ "").1 rfl,
   (claim3_process_response_classification ⟨500, none⟩
      ⟨none, none⟩ "").2.1 (by decide) rfl,
   (claim3_process_response_classification
      ⟨410, some ⟨some "Unregistered", some "1234567890"⟩⟩
      ⟨some "Unregistered", some "1234567890"⟩ "").2.2.1 rfl rfl,
   (claim3_process_response_classification
      ⟨400, some ⟨some "BadDeviceToken", none⟩⟩
      ⟨some "BadDeviceToken", none⟩ "BadDeviceToken").2.2.2
      (by decide) (by decide) rfl rfl⟩

/-- C9: the string/tuple outcome encoding is not injective — a 400 response
whose body claims reason `"Success"` is indistinguishable from a genuine 200
success, and a 500 response with reason `"InternalException"` (or with no
reason field at all) is indistinguishable from a caught per-stream transport
exception. -/
theorem claim9_outcome_encoding_not_injective :
    process_response ⟨400, some ⟨some "Success", none⟩⟩ =
      process_response ⟨200, none⟩ ∧
    process_response ⟨200, none⟩ = PyResult.str "Success" ∧
    process_response ⟨500, some ⟨some "InternalException", none⟩⟩ =
      gatherOutcome (Except.error (PyExn.mk "transport failure")) ∧
    process_response ⟨500, some ⟨none, none⟩⟩ =
      gatherOutcome (Except.error (PyExn.mk "transport failure")) ∧
    (400 : Nat) ≠ 200 ∧ (500 : Nat) ≠ 200 := by
  refine ⟨by decide, by decide, by decide, by decide, by decide, by decide⟩

/-- The push-type header of a built request is exactly the
`inferred_push_type_value` of the payload, topic and explicit push type. -/
theorem lookup_push_type_header (n : Notification) (topic : Option String)
    (priority : NotificationPriority) (expiration : Option Int)
    (collapse_id : Option String) (push_type : Option NotificationType)
    (auth_header : Option String) :
    List.lookup "apns-push-type"
        (send_single_notification_headers n topic priority expiration
          collapse_id push_type auth_header) =
      inferred_push_type_value n.payload topic push_type := by
  simp only [send_single_notification_headers]
  generalize inferred_push_type_value n.payload topic push_type = inf
  cases inf <;> cases topic <;> cases priority <;> cases expiration <;>
    cases auth_header <;> cases collapse_id <;> rfl

/-- C5: the push-type header follows the spec's precedence — an explicit
`push_type` is used verbatim, else a present topic is inferred from its
suffix (`.voip`, `.complication`, `.pushkit.fileprovider`), else the payload's
alert/badge/sound presence selects Alert over Background — and the three
special suffixes are mutually exclusive, so each suffix case applies
regardless of the payload and of the other suffix tests. -/
theorem claim5_push_type_precedence (n : Notification) (topic : Option String)
    (priority : NotificationPriority) (expiration : Option Int)
    (collapse_id : Option String) (push_type : Option NotificationType)
    (auth_header : Option String) (t : String) :
    (List.lookup "apns-push-type"
        (send_single_notification_headers n topic priority expiration
          collapse_id push_type auth_header) =
      spec_push_type_value n.payload topic push_type) ∧
    (pyEndsWith t ".complication" = true → pyEndsWith t ".voip" = false) ∧
    (pyEndsWith t ".pushkit.fileprovider" = true →
      pyEndsWith t ".voip" = false ∧ pyEndsWith t ".complication" = false) := by
  refine ⟨?_, ?_, ?_⟩
  · rw [lookup_push_type_header]
    cases push_type with
    | some pt => rfl
    | none =>
      cases topic with
      | none => rfl
      | some s =>
        simp only [inferred_push_type_value, spec_push_type_value]
        split_ifs <;> rfl
  · intro h
    have hc : ".complication".data <:+ t.data := of_decide_eq_true h
    refine decide_eq_false ?_
    intro hv
    have hvc : ".voip".data <:+ ".complication".data :=
      List.suffix_of_suffix_length_le hv hc (by decide)
    exact absurd hvc (by decide)
  · intro h
    have hf : ".pushkit.fileprovider".data <:+ t.data := of_decide_eq_true h
    constructor
    · refine decide_eq_false ?_
      intro hv
      have hvf : ".voip".data <:+ ".pushkit.fileprovider".data :=
        List.suffix_of_suffix_length_le hv hf (by decide)
      exact absurd hvf (by decide)
    · refine decide_eq_false ?_
      intro hc
      have hcf : ".complication".data <:+ ".pushkit.fileprovider".data :=
        List.suffix_of_suffix_length_le hc hf (by decide)
      exact absurd hcf (by decide)

/-- C5 witness: the suffix-exclusivity implications of the claim theorem
discharged at concrete topics. -/
theorem claim5_witness :
    pyEndsWith "com.example.complication" ".voip" = false ∧
    pyEndsWith "com.example.pushkit.fileprovider" ".voip" = false ∧
    pyEndsWith "com.example.pushkit.fileprovider" ".complication" = false :=
  ⟨(claim5_push_type_precedence ⟨"00", emptyPayload⟩ none .Immediate none none
      none none "com.example.complication").2.1 (by decide),
   ((claim5_push_type_precedence ⟨"00", emptyPayload⟩ none .Immediate none none
      none none "com.example.pushkit.fileprovider").2.2 (by decide)).1,
   ((claim5_push_type_precedence ⟨"00", emptyPayload⟩ none .Immediate none none
      none none "com.example.pushkit.fileprovider").2.2 (by decide)).2⟩

/-- C6 counterexample: with no topic but an explicitly set
`push_type=NotificationType.Alert`, the built request does carry an
`apns-push-type` header (`"alert"`), because the explicit-push-type override
in the source sits outside the `if topic is not None` block — so the claim
that an absent routing scope suppresses the header for every combination of
options fails. -/
theorem claim6_counterexample :
    List.lookup "apns-push-type"
        (send_single_notification_headers ⟨"t", emptyPayload⟩ none
          NotificationPriority.Immediate none none
          (some NotificationType.Alert) none) = some "alert" ∧
    (some "alert" : Option String) ≠ none := by
  exact ⟨rfl, by decide⟩

/-- C6 (amended): with an absent routing scope and no explicitly set
`options.push_type`, no push-type header is emitted, for every payload and
every combination of the remaining delivery options. -/
theorem claim6_amended_no_push_type_header (n : Notification)
    (priority : NotificationPriority) (expiration : Option Int)
    (collapse_id : Option String) (auth_header : Option String) :
    List.lookup "apns-push-type"
        (send_single_notification_headers n none priority expiration
          collapse_id none auth_header) = none := by
  rw [lookup_push_type_header]
  rfl

/-- C4 counterexample: at the exact boundary `now - issued_at = lifetime`
(cache issued at 0, lifetime 2700, call at 2700) the provider returns the
cached text and leaves the cache untouched, whereas the claim demands a fresh
signature there — `_is_expired_token` uses a strict `>` comparison, not
`>=`. -/
theorem claim4_counterexample :
    get_or_create_topic_token 2700 (fun u => "jwt-" ++ toString u) 2700
        (some (0, "jwt-0")) = ("jwt-0", some (0, "jwt-0")) ∧
    ("jwt-0", some ((0 : Nat), "jwt-0")) ≠
      ("jwt-2700", some ((2700 : Nat), "jwt-2700")) := by
  exact ⟨rfl, by decide⟩

/-- C4 (amended): the token credential regenerates the cached signature
exactly when no cached signature exists or `now - issued_at > lifetime`
(strictly); within lifetime — including the exact boundary
`now - issued_at = lifetime` — the cached text is returned and the cache is
unchanged; consequently a second call within lifetime of the first returns
identical text, a call strictly after lifetime returns the freshly minted
text, and `get_authorization_header` wraps the text as a bearer header. -/
theorem claim4_amended_token_cache (token_lifetime : Nat)
    (mk_token : Nat → String) (now t0 t1 issued_at : Nat) (tok : String) :
    (get_or_create_topic_token token_lifetime mk_token now none =
      (mk_token now, some (now, mk_token now))) ∧
    (now > issued_at + token_lifetime →
      get_or_create_topic_token token_lifetime mk_token now
          (some (issued_at, tok)) =
        (mk_token now, some (now, mk_token now))) ∧
    (now ≤ issued_at + token_lifetime →
      get_or_create_topic_token token_lifetime mk_token now
          (some (issued_at, tok)) =
        (tok, some (issued_at, tok))) ∧
    (get_or_create_topic_token token_lifetime mk_token
        (issued_at + token_lifetime) (some (issued_at, tok)) =
      (tok, some (issued_at, tok))) ∧
    (t1 ≤ t0 + token_lifetime →
      (get_or_create_topic_token token_lifetime mk_token t1
          (get_or_create_topic_token token_lifetime mk_token t0 none).2).1 =
        (get_or_create_topic_token token_lifetime mk_token t0 none).1) ∧
    (t1 > t0 + token_lifetime →
      (get_or_create_topic_token token_lifetime mk_token t1
          (get_or_create_topic_token token_lifetime mk_token t0 none).2).1 =
        mk_token t1) ∧
    (∀ cache, get_authorization_header_token token_lifetime mk_token now cache =
      ("bearer " ++ (get_or_create_topic_token token_lifetime mk_token now cache).1,
        (get_or_create_topic_token token_lifetime mk_token now cache).2)) := by
  refine ⟨rfl, ?_, ?_, ?_, ?_, ?_, fun cache => rfl⟩
  · intro h
    simp [get_or_create_topic_token, is_expired_token, h]
  · intro h
    have h' : ¬ (now > issued_at + token_lifetime) := by omega
    simp [get_or_create_topic_token, is_expired_token, h']
  · have h' : ¬ (issued_at + token_lifetime > issued_at + token_lifetime) := by
      omega
    simp [get_or_create_topic_token, is_expired_token, h']
  · intro h
    have h' : ¬ (t1 > t0 + token_lifetime) := by omega
    simp [get_or_create_topic_token, is_expired_token, h']
  · intro h
    simp [get_or_create_topic_token, is_expired_token, h]

/-- C4 witness: the cache lifecycle at concrete times with lifetime 2700 —
creation from an empty cache, regeneration strictly past the deadline, reuse
within it, and the two-call identical/fresh-text corollaries. -/
theorem claim4_witness :
    get_or_create_topic_token 2700 (fun u => "jwt-" ++ toString u) 10 none =
      ("jwt-10", some (10, "jwt-10")) ∧
    get_or_create_topic_token 2700 (fun u => "jwt-" ++ toString u) 2701
        (some (0, "jwt-0")) = ("jwt-2701", some (2701, "jwt-2701")) ∧
    get_or_create_topic_token 2700 (fun u => "jwt-" ++ toString u) 100
        (some (0, "jwt-0")) = ("jwt-0", some (0, "jwt-0")) ∧
    (get_or_create_topic_token 2700 (fun u => "jwt-" ++ toString u) 2700
        (get_or_create_topic_token 2700 (fun u => "jwt-" ++ toString u) 0 none).2).1 =
      (get_or_create_topic_token 2700 (fun u => "jwt-" ++ toString u) 0 none).1 ∧
    (get_or_create_topic_token 2700 (fun u => "jwt-" ++ toString u) 2701
        (get_or_create_topic_token 2700 (fun u => "jwt-" ++ toString u) 0 none).2).1 =
      (fun u => "jwt-" ++ toString u) 2701 :=
  ⟨(claim4_amended_token_cache 2700 (fun u => "jwt-" ++ toString u)
      10 0 0 0 "jwt-0").1,
   (claim4_amended_token_cache 2700 (fun u => "jwt-" ++ toString u)
      2701 0 0 0 "jwt-0").2.1 (by decide),
   (claim4_amended_token_cache 2700 (fun u => "jwt-" ++ toString u)
      100 0 0 0 "jwt-0").2.2.1 (by decide),
   (claim4_amended_token_cache 2700 (fun u => "jwt-" ++ toString u)
      0 0 2700 0 "jwt-0").2.2.2.2.1 (by decide),
   (claim4_amended_token_cache 2700 (fun u => "jwt-" ++ toString u)
      0 0 2701 0 "jwt-0").2.2.2.2.2.1 (by decide)⟩

/-- C7: the bridge's strategy selection — the Celery flag forces worker-thread
isolation; otherwise a running loop in the calling thread forces worker-thread
isolation; otherwise a successful direct `asyncio.run` stands, a
`RuntimeError` carrying one of the four event-loop lifecycle phrases falls
back to manual loop management, a `RuntimeError` without such a phrase falls
back to a worker thread, and any other exception falls back to a worker
thread. -/
theorem claim7_strategy_selection (msg : String) (d : DirectOutcome) :
    (∀ (inside : Bool) (dd : DirectOutcome),
      run_async_strategy true inside dd = Strategy.separateThread) ∧
    (run_async_strategy false true d = Strategy.separateThread) ∧
    (run_async_strategy false false DirectOutcome.ok = Strategy.direct) ∧
    (is_event_loop_error msg = true →
      run_async_strategy false false (DirectOutcome.runtimeError msg) =
        Strategy.manualLoop) ∧
    (is_event_loop_error msg = false →
      run_async_strategy false false (DirectOutcome.runtimeError msg) =
        Strategy.separateThread) ∧
    (run_async_strategy false false (DirectOutcome.otherError msg) =
      Strategy.separateThread) := by
  refine ⟨fun inside dd => rfl, rfl, rfl, ?_, ?_, rfl⟩
  · intro h
    simp [run_async_strategy, h]
  · intro h
    simp [run_async_strategy, h]

/-- C7 witness: the six selection cases at concrete inputs, including a
lifecycle `RuntimeError` message (matched case-insensitively) and a
non-lifecycle one. -/
theorem claim7_witness :
    run_async_strategy true false DirectOutcome.ok = Strategy.separateThread ∧
    run_async_strategy false true DirectOutcome.ok = Strategy.separateThread ∧
    run_async_strategy false false DirectOutcome.ok = Strategy.direct ∧
    run_async_strategy false false
        (DirectOutcome.runtimeError "Event loop is closed") =
      Strategy.manualLoop ∧
    run_async_strategy false false
        (DirectOutcome.runtimeError "division by zero") =
      Strategy.separateThread ∧
    run_async_strategy false false
        (DirectOutcome.otherError "KeyboardInterrupt") =
      Strategy.separateThread :=
  ⟨(claim7_strategy_selection "x" DirectOutcome.ok).1 false DirectOutcome.ok,
   (claim7_strategy_selection "x" DirectOutcome.ok).2.1,
   (claim7_strategy_selection "x" DirectOutcome.ok).2.2.1,
   (claim7_strategy_selection "Event loop is closed" DirectOutcome.ok).2.2.2.1
     (by decide),
   (claim7_strategy_selection "division by zero" DirectOutcome.ok).2.2.2.2.1
     (by decide),
   (claim7_strategy_selection "KeyboardInterrupt"
     DirectOutcome.ok).2.2.2.2.2⟩

/-- C10: the worker-thread bridge conflates a coroutine that completes with
`None` with a worker that captured neither result nor exception — both leave
the capture state at its initial value and both surface as the generic
`"Failed to get result from async operation"` failure; and this branch is
unreachable for the client's own dispatch operations, whose results — a batch
dict (even the empty one) or a single-send string/tuple — are never `None`. -/
theorem claim10_none_result_conflation (transport : Nat → Except PyExn Resp)
    (ns : List Notification) (r : PyResult) :
    run_in_separate_thread (Except.ok PyVal.pyNone) false =
      Except.error
        (BridgeError.genericFailure "Failed to get result from async operation") ∧
    run_worker (Except.ok PyVal.pyNone) = (PyVal.pyNone, Option.none) ∧
    bridge_finish (PyVal.pyNone, Option.none) false =
      Except.error
        (BridgeError.genericFailure "Failed to get result from async operation") ∧
    run_in_separate_thread
        (Except.ok (PyVal.dict (asend_notification_batch transport ns))) false =
      Except.ok (PyVal.dict (asend_notification_batch transport ns)) ∧
    run_in_separate_thread (Except.ok (pyResultToVal r)) false =
      Except.ok (pyResultToVal r) := by
  refine ⟨by decide, rfl, by decide, ?_, ?_⟩
  · simp [run_in_separate_thread, run_worker, bridge_finish]
  · cases r <;> simp [run_in_separate_thread, run_worker, bridge_finish,
      pyResultToVal]

end APNs2
